import Mathlib

set_option allowUnsafeReducibility true in
attribute [semireducible] Rat.mul Rat.div Rat.inv Rat.normalize Rat.add Rat.sub

/-!
Shallow embedding of the training harness in src/logistic_sgd.py.

The embedding covers:
* the minibatch slicing used in the theano givens of sgd_optimization_mnist
  (lines 252-254 and 301-306): num_batches and batch;
* the LogisticRegression.errors method (lines 128-148): errors;
* the early-stopping training loop of sgd_optimization_mnist
  (lines 312-371): sgd_minibatch_body, sgd_inner_loop, sgd_outer_loop,
  sgd_optimization_mnist.

Numeric conventions: Python 2 ints are Nat here (all quantities involved are
nonnegative: epoch, iter, patience, batch counts); the floats the loop
observes are modelled by PyFloat: an exact rational value, the numpy.inf
that best_validation_loss starts from, or the nan that numpy.mean produces
on an empty list of batch losses (a split smaller than batch_size has zero
batches).  The gradient step itself (train_model) only influences the
control flow of the loop through the measured validation and test losses;
since the run is deterministic, those measurements are functions of the
global iteration counter, and the embedding takes them as oracles vloss and
tloss in the configuration.
-/

set_option autoImplicit false

namespace DBNTest

/-- Mean of a list of rationals: models numpy.mean and T.mean on a vector.
For the empty list this is 0/0 = 0 in Lean. -/
def mean (xs : List ℚ) : ℚ := xs.sum / xs.length

/-! ### Minibatch iterator

Source, src/logistic_sgd.py line 252: n_train_batches = shape[0] / batch_size
(Python 2 integer division), and lines 301-306: the givens slice
train_set_x[index * batch_size : (index + 1) * batch_size]. -/

/-- Number of minibatches: shape[0] / batch_size with Python 2 integer
division (src/logistic_sgd.py lines 252-254). -/
def num_batches (n_samples batch_size : ℕ) : ℕ := n_samples / batch_size

/-- Python slice xs[a:b] for 0 <= a <= b: the elements with indices in
[a, min b (length xs)).  Out-of-range slices clip silently. -/
def py_slice {α : Type} (xs : List α) (a b : ℕ) : List α :=
  (xs.drop a).take (b - a)

/-- The minibatch with a given index: the slice
xs[index * batch_size : (index + 1) * batch_size] from the theano givens in
src/logistic_sgd.py lines 304-306. -/
def batch {α : Type} (xs : List α) (batch_size index : ℕ) : List α :=
  py_slice xs (index * batch_size) ((index + 1) * batch_size)

/-- Modelled from the spec wording of the batch accessor, for comparison
with the source batch: returns the rows of the requested range when
index < num_batches and fails with a bounds error otherwise.  The source
slicing has no such failure mode. -/
def batch_spec {α : Type} (xs : List α) (batch_size index : ℕ) :
    Except Unit (List α) :=
  if index < num_batches xs.length batch_size then
    Except.ok (batch xs batch_size index)
  else
    Except.error ()

/-! ### LogisticRegression.errors (src/logistic_sgd.py lines 128-148) -/

/-- A theano tensor value as far as the errors method inspects it: its
number of dimensions, its dtype string, and its flat data. -/
structure TheanoVec where
  ndim : ℕ
  dtype : String
  data : List ℚ
deriving DecidableEq

/-- The failure modes around LogisticRegression.errors.  Line 140 intends a
TypeError on a dimension mismatch, but its argument tuple at line 141
evaluates target.type, and the name target is defined nowhere in the
module (the parameter is y), so Python raises NameError while building the
arguments and the TypeError is never raised.  notImplemented is the
NotImplementedError of line 148 for a non-integer label dtype. -/
inductive ErrorsFailure where
  | nameError
  | typeError
  | notImplemented
deriving DecidableEq

/-- One entry of the T.neq vector: 1 where prediction and label differ,
0 where they agree. -/
def neq_indicator (a b : ℚ) : ℚ := if a = b then 0 else 1

/-- The Python test y.dtype.startswith of line 143 against int: the
character list of "int" leads the character list of the dtype string. -/
def startswith_int (dtype : String) : Bool :=
  "int".toList.isPrefixOf dtype.toList

/-- LogisticRegression.errors (src/logistic_sgd.py lines 128-148):
the dimension check of line 139 enters the raise of line 140, whose
argument tuple evaluates the undefined name target at line 141, so the
mismatch path actually raises NameError; then the dtype check
(NotImplementedError unless the dtype starts with int, line 148), else
T.mean(T.neq(y_pred, y)) (line 146). -/
def errors (y_pred y : TheanoVec) : Except ErrorsFailure ℚ :=
  if y.ndim ≠ y_pred.ndim then
    Except.error ErrorsFailure.nameError
  else if startswith_int y.dtype then
    Except.ok (mean (List.zipWith neq_indicator y_pred.data y.data))
  else
    Except.error ErrorsFailure.notImplemented

/-! ### The early-stopping training loop (src/logistic_sgd.py lines 312-371) -/

/-- A Python float as the training loop observes it: a finite value (exact
here, a rational), the positive infinity numpy.inf that
best_validation_loss starts from, or the nan that numpy.mean produces on
an empty list (a validation or test split with fewer rows than batch_size
yields zero batches and an empty loss list). -/
inductive PyFloat where
  | val (q : ℚ)
  | inf
  | nan
deriving DecidableEq

/-- Configuration of one call of sgd_optimization_mnist.  n_epochs and the
batch structure are the true parameters of the source function; patience0,
patience_increase and improvement_threshold are the local constants of
lines 313-317 (5000, 2 and 0.995 in the source), kept as fields so that the
claims quantifying over configurations can be stated; default_constants
below records the source values.  vloss iter and tloss iter are the means
of the validation and test batch error rates that validate_model and
test_model would measure at global iteration iter (the loop is
deterministic, so they are functions of iter); a validation or test split
with fewer rows than batch_size has zero batches, and numpy.mean of the
empty loss list is nan (PyFloat.nan). -/
structure SGDConfig where
  n_epochs : ℕ
  n_train_batches : ℕ
  patience0 : ℕ
  patience_increase : ℕ
  improvement_threshold : ℚ
  vloss : ℕ → PyFloat
  tloss : ℕ → PyFloat

/-- The constants hardcoded in src/logistic_sgd.py lines 313-317:
patience = 5000, patience_increase = 2, improvement_threshold = 0.995. -/
def default_constants : ℕ × ℕ × ℚ := (5000, 2, 995 / 1000)

/-- validation_frequency = min(n_train_batches, patience / 2)
(src/logistic_sgd.py line 318), computed once from the initial patience. -/
def validation_frequency (cfg : SGDConfig) : ℕ :=
  min cfg.n_train_batches (cfg.patience0 / 2)

/-- The mutable loop state of sgd_optimization_mnist.  The fields patience,
best_validation_loss (initially PyFloat.inf for numpy.inf), test_score,
epoch and done_looping are the source variables; stop_iter, n_improvements
and n_test_evals are ghost instrumentation recording, respectively, the
iteration at which done_looping was set, how many validation events entered
the new-best branch of line 350, and how many times the test set was
evaluated (line 359). They influence nothing. -/
structure SGDState where
  patience : ℕ
  best_validation_loss : PyFloat
  test_score : PyFloat
  epoch : ℕ
  done_looping : Bool
  stop_iter : Option ℕ
  n_improvements : ℕ
  n_test_evals : ℕ
deriving DecidableEq

/-- The Python float comparison a < b on the values the loop observes:
every comparison against nan is False (in particular nan < inf is False,
so a nan validation loss never counts as an improvement), inf is below
nothing, and every finite value is below inf. -/
def float_lt : PyFloat → PyFloat → Bool
  | PyFloat.nan, _ => false
  | PyFloat.val _, PyFloat.nan => false
  | PyFloat.val a, PyFloat.val b => decide (a < b)
  | PyFloat.val _, PyFloat.inf => true
  | PyFloat.inf, _ => false

/-- best_validation_loss * improvement_threshold for the positive source
threshold 0.995: scaling a finite value multiplies it, and keeps inf at
inf and nan at nan. -/
def pyfloat_scale (t : ℚ) : PyFloat → PyFloat
  | PyFloat.val b => PyFloat.val (b * t)
  | PyFloat.inf => PyFloat.inf
  | PyFloat.nan => PyFloat.nan

/-- The validation block of the loop body (src/logistic_sgd.py lines
339-366): at the cadence (iter + 1) % validation_frequency == 0, compare
this_validation_loss = vloss iter with the running best (line 350), extend
patience on a significant improvement (lines 352-354), record the new best
(line 356) and evaluate the test set (lines 359-361).  Outside the cadence
the state is untouched. -/
def validation_step (cfg : SGDConfig) (s : SGDState) (iter : ℕ) : SGDState :=
  if (iter + 1) % validation_frequency cfg = 0 then
    if float_lt (cfg.vloss iter) s.best_validation_loss then
      { s with
          patience :=
            if float_lt (cfg.vloss iter)
                (pyfloat_scale cfg.improvement_threshold s.best_validation_loss) then
              max s.patience (iter * cfg.patience_increase)
            else s.patience
          best_validation_loss := cfg.vloss iter
          test_score := cfg.tloss iter
          n_improvements := s.n_improvements + 1
          n_test_evals := s.n_test_evals + 1 }
    else s
  else s

/-- The body of the inner minibatch loop (src/logistic_sgd.py lines
335-370) at global iteration iter = (epoch - 1) * n_train_batches +
minibatch_index.  The returned Bool is the break decision of line 370.
The Except error is the ZeroDivisionError that Python raises at line 339
when validation_frequency is 0 (checked before the stop test, since the
modulo of line 339 is evaluated first). -/
def sgd_minibatch_body (cfg : SGDConfig) (s : SGDState) (iter : ℕ) :
    Except Unit (SGDState × Bool) :=
  if validation_frequency cfg = 0 then Except.error ()
  else if (validation_step cfg s iter).patience ≤ iter then
    Except.ok
      ({ validation_step cfg s iter with
          done_looping := true, stop_iter := some iter }, true)
  else
    Except.ok (validation_step cfg s iter, false)

/-- The inner for loop over minibatch_index (src/logistic_sgd.py line 333),
processing rem remaining batches starting at minibatch_index, breaking when
the body signals the break of line 370. -/
def sgd_inner_loop (cfg : SGDConfig) (epoch : ℕ) :
    ℕ → ℕ → SGDState → Except Unit SGDState
  | _, 0, s => Except.ok s
  | minibatch_index, rem + 1, s =>
    match sgd_minibatch_body cfg s
        ((epoch - 1) * cfg.n_train_batches + minibatch_index) with
    | Except.error e => Except.error e
    | Except.ok (s1, brk) =>
      if brk then Except.ok s1
      else sgd_inner_loop cfg epoch (minibatch_index + 1) rem s1

/-- The outer while loop (src/logistic_sgd.py line 331):
while (epoch < n_epochs) and (not done_looping).  The fuel argument is
n_epochs - epoch, so the loop guard epoch < n_epochs is fuel > 0. -/
def sgd_outer_loop (cfg : SGDConfig) : ℕ → SGDState → Except Unit SGDState
  | 0, s => Except.ok s
  | fuel + 1, s =>
    if s.done_looping then Except.ok s
    else
      match sgd_inner_loop cfg (s.epoch + 1) 0 cfg.n_train_batches
          { s with epoch := s.epoch + 1 } with
      | Except.error e => Except.error e
      | Except.ok s1 => sgd_outer_loop cfg fuel s1

/-- The state at the start of training (src/logistic_sgd.py lines 313-330):
patience from the configuration, best_validation_loss = numpy.inf,
test_score = 0, epoch = 0, done_looping = False. -/
def initial_state (cfg : SGDConfig) : SGDState :=
  { patience := cfg.patience0
    best_validation_loss := PyFloat.inf
    test_score := PyFloat.val 0
    epoch := 0
    done_looping := false
    stop_iter := none
    n_improvements := 0
    n_test_evals := 0 }

/-- The whole training loop of sgd_optimization_mnist
(src/logistic_sgd.py lines 329-371). -/
def sgd_optimization_mnist (cfg : SGDConfig) : Except Unit SGDState :=
  sgd_outer_loop cfg cfg.n_epochs (initial_state cfg)

/-! ### Concrete inputs used by witnesses and counterexamples -/

/-- A run with 3 training batches, initial patience 4 (so
validation_frequency = 2) and constant validation loss 1/2. -/
def c1_cfg : SGDConfig :=
  { n_epochs := 10, n_train_batches := 3, patience0 := 4, patience_increase := 2
    improvement_threshold := 995 / 1000
    vloss := fun _ => PyFloat.val (1 / 2), tloss := fun _ => PyFloat.val (1 / 4) }

/-- A loop state of the c1_cfg run just before the minibatch at
iteration 4. -/
def c1w_state : SGDState :=
  { patience := 4, best_validation_loss := PyFloat.val (1 / 2)
    test_score := PyFloat.val (1 / 4)
    epoch := 2, done_looping := false, stop_iter := none
    n_improvements := 1, n_test_evals := 1 }

/-- The state produced by the loop body from c1w_state at iteration 4:
stopped, because patience 4 is spent, between two validation events. -/
def c1w_result : SGDState :=
  { patience := 4, best_validation_loss := PyFloat.val (1 / 2)
    test_score := PyFloat.val (1 / 4)
    epoch := 2, done_looping := true, stop_iter := some 4
    n_improvements := 1, n_test_evals := 1 }

/-- A run with 5 training batches, initial patience 10 (so
validation_frequency = 5): validation events fall at iterations 4, 9, 14,
and the loss improves significantly at iterations 4 and 9. -/
def c2_cfg : SGDConfig :=
  { n_epochs := 100, n_train_batches := 5, patience0 := 10, patience_increase := 2
    improvement_threshold := 995 / 1000
    vloss := fun iter =>
      if iter ≤ 4 then PyFloat.val (9 / 10) else PyFloat.val (1 / 2)
    tloss := fun _ => PyFloat.val (1 / 4) }

/-- The c2_cfg loop state just before the validation event at
iteration 9 (1-based count 10). -/
def c2_pre_state : SGDState :=
  { patience := 10, best_validation_loss := PyFloat.val (9 / 10)
    test_score := PyFloat.val (1 / 4)
    epoch := 2, done_looping := false, stop_iter := none
    n_improvements := 1, n_test_evals := 1 }

/-- The state the body produces from c2_pre_state at iteration 9: the
patience becomes max 10 (9 * 2) = 18, not max 10 (10 * 2) = 20. -/
def c2_post_state : SGDState :=
  { patience := 18, best_validation_loss := PyFloat.val (1 / 2)
    test_score := PyFloat.val (1 / 4)
    epoch := 2, done_looping := false, stop_iter := none
    n_improvements := 2, n_test_evals := 2 }

/-- A run whose validation split is empty: every measured validation loss
is numpy.mean of an empty list, nan, so no validation event ever attains a
new best.  Six training batches, initial patience 8, so
validation_frequency = min 6 4 = 4; events fall at iterations 3, 7, and
the run stops at iteration 8 = patience0 during epoch 2, far before the
configured 10 epochs. -/
def c3_cfg : SGDConfig :=
  { n_epochs := 10, n_train_batches := 6, patience0 := 8, patience_increase := 2
    improvement_threshold := 995 / 1000
    vloss := fun _ => PyFloat.nan, tloss := fun _ => PyFloat.nan }

/-- The final state of the c3_cfg run: no improvement was ever recorded,
patience stayed 8, and the run stopped at iteration 8 in epoch 2 of 10. -/
def c3_final : SGDState :=
  { patience := 8, best_validation_loss := PyFloat.inf
    test_score := PyFloat.val 0
    epoch := 2, done_looping := true, stop_iter := some 8
    n_improvements := 0, n_test_evals := 0 }

/-- A run with 4 training batches and patience 100, so
validation_frequency = 4 and events fall at iterations 3, 7, 11, and the
loss measured at iteration 3 is the only improvement. -/
def c4_cfg : SGDConfig :=
  { n_epochs := 50, n_train_batches := 4, patience0 := 100, patience_increase := 2
    improvement_threshold := 995 / 1000
    vloss := fun iter =>
      if iter = 3 then PyFloat.val (1 / 2) else PyFloat.val 1
    tloss := fun _ => PyFloat.val (1 / 5) }

/-- A c4_cfg loop state before the improving validation event at
iteration 3. -/
def c4_pre_state : SGDState :=
  { patience := 100, best_validation_loss := PyFloat.val (3 / 4)
    test_score := PyFloat.val (1 / 3)
    epoch := 1, done_looping := false, stop_iter := none
    n_improvements := 1, n_test_evals := 1 }

/-- The state the body produces from c4_pre_state at the improving event
of iteration 3: the test set was evaluated and both records updated. -/
def c4_post_state : SGDState :=
  { patience := 100, best_validation_loss := PyFloat.val (1 / 2)
    test_score := PyFloat.val (1 / 5)
    epoch := 1, done_looping := false, stop_iter := none
    n_improvements := 2, n_test_evals := 2 }

/-- A configuration with zero training batches: validation_frequency is 0,
yet no modulo is ever evaluated. -/
def c5_cfg_zero : SGDConfig :=
  { n_epochs := 3, n_train_batches := 0, patience0 := 5000, patience_increase := 2
    improvement_threshold := 995 / 1000
    vloss := fun _ => PyFloat.val (1 / 2), tloss := fun _ => PyFloat.val 0 }

/-- A configuration with one training batch but initial patience 1, so
validation_frequency = min 1 (1 / 2) = 0 and the first minibatch evaluates
a modulo by zero. -/
def c5_cfg_crash : SGDConfig :=
  { n_epochs := 1, n_train_batches := 1, patience0 := 1, patience_increase := 2
    improvement_threshold := 995 / 1000
    vloss := fun _ => PyFloat.val (1 / 2), tloss := fun _ => PyFloat.val 0 }

/-- A second zero-batch configuration for the C5 witness. -/
def c5w_cfg_a : SGDConfig :=
  { n_epochs := 4, n_train_batches := 0, patience0 := 7, patience_increase := 2
    improvement_threshold := 995 / 1000
    vloss := fun _ => PyFloat.val (1 / 3), tloss := fun _ => PyFloat.val 0 }

/-- A configuration with batches but initial patience 0, for the C5
witness of the modulo fault. -/
def c5w_cfg_b : SGDConfig :=
  { n_epochs := 3, n_train_batches := 2, patience0 := 0, patience_increase := 2
    improvement_threshold := 995 / 1000
    vloss := fun _ => PyFloat.val (1 / 3), tloss := fun _ => PyFloat.val 0 }

/-- Predictions vector as built by T.argmax: one dimensional, integer
dtype. -/
def c6_y_pred : TheanoVec := { ndim := 1, dtype := "int64", data := [0, 1, 2] }

/-- Integer labels of matching dimension, disagreeing on one of three
samples. -/
def c6_y_int : TheanoVec := { ndim := 1, dtype := "int32", data := [0, 1, 1] }

/-- Labels with a mismatched number of dimensions. -/
def c6_y_bad_dim : TheanoVec := { ndim := 2, dtype := "int32", data := [0, 1, 1] }

/-- Labels with a non-integer dtype. -/
def c6_y_float : TheanoVec := { ndim := 1, dtype := "float64", data := [0, 1, 1] }

/-- Five rows, batch size two: num_batches = 2, row 4 is the trailing
remainder. -/
def c7_rows : List ℕ := [0, 1, 2, 3, 4]

/-- Rows for the C7 witness. -/
def c7w_rows : List ℕ := [10, 20, 30, 40, 50]

/-- Rows for the C8 witness: seven rows, batch size three. -/
def c8w_rows : List ℕ := [0, 1, 2, 3, 4, 5, 6]

/-- A run whose patience grows: 2 training batches, patience 6, and a
validation loss that keeps improving significantly. -/
def c10_cfg : SGDConfig :=
  { n_epochs := 3, n_train_batches := 2, patience0 := 6, patience_increase := 2
    improvement_threshold := 995 / 1000
    vloss := fun iter => PyFloat.val (mkRat 1 (iter + 2))
    tloss := fun _ => PyFloat.val 0 }

/-- A c10_cfg loop state before the validation event at iteration 5. -/
def c10w_state : SGDState :=
  { patience := 6, best_validation_loss := PyFloat.val (1 / 5)
    test_score := PyFloat.val 0
    epoch := 3, done_looping := false, stop_iter := none
    n_improvements := 2, n_test_evals := 2 }

/-- The state the body produces from c10w_state at iteration 5: patience
extended from 6 to max 6 (5 * 2) = 10. -/
def c10w_post : SGDState :=
  { patience := 10, best_validation_loss := PyFloat.val (mkRat 1 7)
    test_score := PyFloat.val 0
    epoch := 3, done_looping := false, stop_iter := none
    n_improvements := 3, n_test_evals := 3 }

/-- The final state of the c10_cfg run: patience grew from 6 to 10 and the
run used all three epochs. -/
def c10w_final : SGDState :=
  { patience := 10, best_validation_loss := PyFloat.val (mkRat 1 7)
    test_score := PyFloat.val 0
    epoch := 3, done_looping := false, stop_iter := none
    n_improvements := 3, n_test_evals := 3 }

/-! ### Helper lemmas about the loop pieces -/

lemma validation_step_done (cfg : SGDConfig) (s : SGDState) (iter : ℕ) :
    (validation_step cfg s iter).done_looping = s.done_looping := by
  rw [validation_step]
  split
  · split <;> rfl
  · rfl

lemma validation_step_patience_le (cfg : SGDConfig) (s : SGDState) (iter : ℕ) :
    s.patience ≤ (validation_step cfg s iter).patience := by
  rw [validation_step]
  split
  · split
    · show s.patience ≤ (if _ then max s.patience _ else s.patience)
      split
      · exact le_max_left _ _
      · exact le_rfl
    · exact le_rfl
  · exact le_rfl

lemma validation_step_improvements_le (cfg : SGDConfig) (s : SGDState) (iter : ℕ) :
    s.n_improvements ≤ (validation_step cfg s iter).n_improvements := by
  rw [validation_step]
  split
  · split
    · exact Nat.le_succ _
    · exact le_rfl
  · exact le_rfl

lemma validation_step_not_event (cfg : SGDConfig) (s : SGDState) (iter : ℕ)
    (h : (iter + 1) % validation_frequency cfg ≠ 0) :
    validation_step cfg s iter = s := by
  rw [validation_step, if_neg h]

lemma body_error_of_vf (cfg : SGDConfig) (s : SGDState) (iter : ℕ)
    (h : validation_frequency cfg = 0) :
    sgd_minibatch_body cfg s iter = Except.error () := by
  rw [sgd_minibatch_body, if_pos h]

lemma body_vf_ne_of_ok (cfg : SGDConfig) (s : SGDState) (iter : ℕ)
    (s' : SGDState) (brk : Bool)
    (h : sgd_minibatch_body cfg s iter = Except.ok (s', brk)) :
    validation_frequency cfg ≠ 0 := by
  intro hvf
  rw [body_error_of_vf cfg s iter hvf] at h
  cases h

lemma body_cases (cfg : SGDConfig) (s : SGDState) (iter : ℕ)
    (s' : SGDState) (brk : Bool)
    (h : sgd_minibatch_body cfg s iter = Except.ok (s', brk)) :
    (validation_step cfg s iter).patience ≤ iter ∧
      s' = { validation_step cfg s iter with
              done_looping := true, stop_iter := some iter } ∧ brk = true ∨
    ¬ (validation_step cfg s iter).patience ≤ iter ∧
      s' = validation_step cfg s iter ∧ brk = false := by
  have hvf := body_vf_ne_of_ok cfg s iter s' brk h
  rw [sgd_minibatch_body, if_neg hvf] at h
  by_cases hp : (validation_step cfg s iter).patience ≤ iter
  · rw [if_pos hp] at h
    obtain ⟨h1, h2⟩ := Prod.mk.injEq .. ▸ Except.ok.injEq .. ▸ h
    exact Or.inl ⟨hp, h1.symm, h2.symm⟩
  · rw [if_neg hp] at h
    obtain ⟨h1, h2⟩ := Prod.mk.injEq .. ▸ Except.ok.injEq .. ▸ h
    exact Or.inr ⟨hp, h1.symm, h2.symm⟩

lemma body_patience_le (cfg : SGDConfig) (s : SGDState) (iter : ℕ)
    (s' : SGDState) (brk : Bool)
    (h : sgd_minibatch_body cfg s iter = Except.ok (s', brk)) :
    s.patience ≤ s'.patience := by
  rcases body_cases cfg s iter s' brk h with ⟨_, hs, _⟩ | ⟨_, hs, _⟩ <;>
    rw [hs] <;> exact validation_step_patience_le cfg s iter

lemma body_improvements_le (cfg : SGDConfig) (s : SGDState) (iter : ℕ)
    (s' : SGDState) (brk : Bool)
    (h : sgd_minibatch_body cfg s iter = Except.ok (s', brk)) :
    s.n_improvements ≤ s'.n_improvements := by
  rcases body_cases cfg s iter s' brk h with ⟨_, hs, _⟩ | ⟨_, hs, _⟩ <;>
    rw [hs] <;> exact validation_step_improvements_le cfg s iter

lemma inner_patience_le (cfg : SGDConfig) (epoch : ℕ) :
    ∀ (rem m : ℕ) (s s' : SGDState),
      sgd_inner_loop cfg epoch m rem s = Except.ok s' →
      s.patience ≤ s'.patience := by
  intro rem
  induction rem with
  | zero =>
    intro m s s' h
    rw [sgd_inner_loop] at h
    cases h
    exact le_rfl
  | succ rem ih =>
    intro m s s' h
    rw [sgd_inner_loop] at h
    cases hb : sgd_minibatch_body cfg s ((epoch - 1) * cfg.n_train_batches + m) with
    | error e => rw [hb] at h; cases h
    | ok p =>
      obtain ⟨s1, brk⟩ := p
      rw [hb] at h
      have h1 := body_patience_le cfg s _ s1 brk hb
      cases brk with
      | true =>
        simp only [if_pos] at h
        cases h
        exact h1
      | false =>
        simp only [Bool.false_eq_true, if_neg, if_false] at h
        exact le_trans h1 (ih (m + 1) s1 s' h)

lemma inner_improvements_le (cfg : SGDConfig) (epoch : ℕ) :
    ∀ (rem m : ℕ) (s s' : SGDState),
      sgd_inner_loop cfg epoch m rem s = Except.ok s' →
      s.n_improvements ≤ s'.n_improvements := by
  intro rem
  induction rem with
  | zero =>
    intro m s s' h
    rw [sgd_inner_loop] at h
    cases h
    exact le_rfl
  | succ rem ih =>
    intro m s s' h
    rw [sgd_inner_loop] at h
    cases hb : sgd_minibatch_body cfg s ((epoch - 1) * cfg.n_train_batches + m) with
    | error e => rw [hb] at h; cases h
    | ok p =>
      obtain ⟨s1, brk⟩ := p
      rw [hb] at h
      have h1 := body_improvements_le cfg s _ s1 brk hb
      cases brk with
      | true =>
        simp only [if_pos] at h
        cases h
        exact h1
      | false =>
        simp only [Bool.false_eq_true, if_neg, if_false] at h
        exact le_trans h1 (ih (m + 1) s1 s' h)

lemma outer_patience_le (cfg : SGDConfig) :
    ∀ (fuel : ℕ) (s s' : SGDState),
      sgd_outer_loop cfg fuel s = Except.ok s' →
      s.patience ≤ s'.patience := by
  intro fuel
  induction fuel with
  | zero =>
    intro s s' h
    rw [sgd_outer_loop] at h
    cases h
    exact le_rfl
  | succ fuel ih =>
    intro s s' h
    rw [sgd_outer_loop] at h
    by_cases hd : s.done_looping
    · rw [if_pos hd] at h
      cases h
      exact le_rfl
    · rw [if_neg hd] at h
      cases hi : sgd_inner_loop cfg (s.epoch + 1) 0 cfg.n_train_batches
          { s with epoch := s.epoch + 1 } with
      | error e => rw [hi] at h; cases h
      | ok s1 =>
        rw [hi] at h
        have h1 := inner_patience_le cfg (s.epoch + 1) cfg.n_train_batches 0 _ s1 hi
        exact le_trans h1 (ih s1 s' h)

lemma outer_improvements_le (cfg : SGDConfig) :
    ∀ (fuel : ℕ) (s s' : SGDState),
      sgd_outer_loop cfg fuel s = Except.ok s' →
      s.n_improvements ≤ s'.n_improvements := by
  intro fuel
  induction fuel with
  | zero =>
    intro s s' h
    rw [sgd_outer_loop] at h
    cases h
    exact le_rfl
  | succ fuel ih =>
    intro s s' h
    rw [sgd_outer_loop] at h
    by_cases hd : s.done_looping
    · rw [if_pos hd] at h
      cases h
      exact le_rfl
    · rw [if_neg hd] at h
      cases hi : sgd_inner_loop cfg (s.epoch + 1) 0 cfg.n_train_batches
          { s with epoch := s.epoch + 1 } with
      | error e => rw [hi] at h; cases h
      | ok s1 =>
        rw [hi] at h
        have h1 := inner_improvements_le cfg (s.epoch + 1) cfg.n_train_batches 0 _ s1 hi
        exact le_trans h1 (ih s1 s' h)

lemma outer_zero_batches (cfg : SGDConfig) (hnb : cfg.n_train_batches = 0) :
    ∀ (fuel : ℕ) (s : SGDState), s.done_looping = false →
      sgd_outer_loop cfg fuel s = Except.ok { s with epoch := s.epoch + fuel } := by
  intro fuel
  induction fuel with
  | zero =>
    intro s _
    rw [sgd_outer_loop]
    congr
  | succ fuel ih =>
    intro s hd
    have step : sgd_outer_loop cfg (fuel + 1) s =
        sgd_outer_loop cfg fuel { s with epoch := s.epoch + 1 } := by
      rw [sgd_outer_loop, if_neg (by rw [hd]; exact Bool.false_ne_true), hnb,
        sgd_inner_loop]
    rw [step, ih { s with epoch := s.epoch + 1 } hd]
    congr 2
    show s.epoch + 1 + fuel = s.epoch + (fuel + 1)
    omega

lemma inner_error_of_vf (cfg : SGDConfig) (epoch : ℕ)
    (hvf : validation_frequency cfg = 0) (m rem : ℕ) (s : SGDState) :
    sgd_inner_loop cfg epoch m (rem + 1) s = Except.error () := by
  rw [sgd_inner_loop, body_error_of_vf cfg s _ hvf]

lemma batch_eq_take_drop {α : Type} (xs : List α) (b i : ℕ) :
    batch xs b i = (xs.drop (i * b)).take b := by
  rw [batch, py_slice, Nat.succ_mul, Nat.add_sub_cancel_left]

lemma batch_length_of_lt {α : Type} (xs : List α) (b i : ℕ)
    (hi : i < xs.length / b) : (batch xs b i).length = b := by
  have h1 : (i + 1) * b ≤ (xs.length / b) * b := Nat.mul_le_mul_right b hi
  have h2 := Nat.div_mul_le_self xs.length b
  rw [Nat.succ_mul] at h1
  rw [batch_eq_take_drop, List.length_take, List.length_drop]
  omega

lemma batch_length_of_ge {α : Type} (xs : List α) (b i : ℕ) (hb : 0 < b)
    (hi : xs.length / b ≤ i) : (batch xs b i).length < b := by
  have h3 : xs.length < (i + 1) * b :=
    (Nat.div_lt_iff_lt_mul hb).mp (Nat.lt_succ_of_le hi)
  rw [Nat.succ_mul] at h3
  rw [batch_eq_take_drop, List.length_take, List.length_drop]
  omega

/-! ### Claim C6 -/

/-- C6: the dimension-mismatch path of the errors method does not raise
the TypeError shape error of line 140: the argument tuple of that raise
evaluates the undefined name target at line 141, so the method raises
NameError there, a failure mode distinct from the intended TypeError.  The
remaining conjuncts of the claim hold: with matching dimensions a
non-integer dtype raises NotImplementedError, distinct from the NameError,
and integer labels yield the fraction of differing samples, here 1/3. -/
theorem c6_dim_mismatch_raises_name_error :
    errors c6_y_pred c6_y_bad_dim = Except.error ErrorsFailure.nameError ∧
    ErrorsFailure.nameError ≠ ErrorsFailure.typeError ∧
    errors c6_y_pred c6_y_float = Except.error ErrorsFailure.notImplemented ∧
    ErrorsFailure.nameError ≠ ErrorsFailure.notImplemented ∧
    errors c6_y_pred c6_y_int = Except.ok (1 / 3) := by
  refine ⟨rfl, by decide, rfl, by decide, ?_⟩
  show Except.ok (mean (List.zipWith neq_indicator c6_y_pred.data c6_y_int.data))
      = Except.ok (1 / 3)
  norm_num [mean, c6_y_pred, c6_y_int, neq_indicator]

/-! ### Claim C7 -/

/-- C7 counterexample: with five rows and batch size two there are two
batches; at the out-of-range indices 2 and 3 the spec-worded accessor
signals a bounds error but the source slicing silently returns the single
remainder row, then the empty list. -/
theorem c7_counterexample :
    num_batches c7_rows.length 2 = 2 ∧
    (batch_spec c7_rows 2 2).toOption = none ∧
    batch c7_rows 2 2 = [4] ∧
    batch c7_rows 2 3 = [] := by decide

/-- C7 amended: for index below num_batches the batch is exactly the rows
of the range, of length batch_size; for index at or above num_batches the
slicing does not fail but returns a clipped batch of fewer than batch_size
rows. -/
theorem c7_batch_clipping {α : Type} (xs : List α) (b i : ℕ) (hb : 0 < b) :
    (i < num_batches xs.length b →
      (batch xs b i).length = b ∧
      ∀ j, j < b → (batch xs b i).get? j = xs.get? (i * b + j)) ∧
    (num_batches xs.length b ≤ i → (batch xs b i).length < b) := by
  constructor
  · intro hi
    refine ⟨batch_length_of_lt xs b i hi, ?_⟩
    intro j hj
    rw [batch_eq_take_drop, List.get?_take hj, List.get?_drop]
  · intro hi
    exact batch_length_of_ge xs b i hb hi

/-- C7 witness for the amended statement at five concrete rows. -/
theorem c7_witness :
    (batch c7w_rows 2 1).length = 2 ∧
    (batch c7w_rows 2 1).get? 0 = c7w_rows.get? (1 * 2 + 0) ∧
    (batch c7w_rows 2 2).length < 2 := by
  obtain ⟨h1, h2⟩ := c7_batch_clipping c7w_rows 2 1 (by decide)
  obtain ⟨hl, hg⟩ := h1 (by decide)
  obtain ⟨_, h3⟩ := c7_batch_clipping c7w_rows 2 2 (by decide)
  exact ⟨hl, hg 0 (by decide), h3 (by decide)⟩

/-! ### Claim C8 -/

/-- C8: the number of minibatches is the floor of n_samples / batch_size,
and every batch with index below num_batches has exactly batch_size rows. -/
theorem c8_batch_sizes {α : Type} (xs : List α) (b : ℕ) (_hb : 0 < b) :
    num_batches xs.length b = xs.length / b ∧
    ∀ i, i < num_batches xs.length b → (batch xs b i).length = b := by
  refine ⟨rfl, ?_⟩
  intro i hi
  exact batch_length_of_lt xs b i hi

/-- C8 witness at seven concrete rows with batch size three. -/
theorem c8_witness :
    num_batches c8w_rows.length 3 = c8w_rows.length / 3 ∧
    (batch c8w_rows 3 1).length = 3 := by
  obtain ⟨h1, h2⟩ := c8_batch_sizes c8w_rows 3 (by decide)
  exact ⟨h1, h2 1 (by decide)⟩

lemma validation_step_frame (cfg : SGDConfig) (s : SGDState) (iter : ℕ)
    (hno : (iter + 1) % validation_frequency cfg ≠ 0 ∨
      float_lt (cfg.vloss iter) s.best_validation_loss = false) :
    validation_step cfg s iter = s := by
  rcases hno with hno | hno
  · exact validation_step_not_event cfg s iter hno
  · rw [validation_step]
    split
    · rw [if_neg (by simp [hno])]
    · rfl

lemma validation_step_improving (cfg : SGDConfig) (s : SGDState) (iter : ℕ)
    (hev : (iter + 1) % validation_frequency cfg = 0)
    (hlt : float_lt (cfg.vloss iter) s.best_validation_loss = true) :
    (validation_step cfg s iter).best_validation_loss = cfg.vloss iter ∧
    (validation_step cfg s iter).test_score = cfg.tloss iter ∧
    (validation_step cfg s iter).n_test_evals = s.n_test_evals + 1 := by
  rw [validation_step, if_pos hev, if_pos hlt]
  exact ⟨rfl, rfl, rfl⟩

lemma body_fields (cfg : SGDConfig) (s : SGDState) (iter : ℕ)
    (s' : SGDState) (brk : Bool)
    (h : sgd_minibatch_body cfg s iter = Except.ok (s', brk)) :
    s'.best_validation_loss = (validation_step cfg s iter).best_validation_loss ∧
    s'.test_score = (validation_step cfg s iter).test_score ∧
    s'.n_test_evals = (validation_step cfg s iter).n_test_evals := by
  rcases body_cases cfg s iter s' brk h with ⟨_, hs, _⟩ | ⟨_, hs, _⟩ <;>
    subst hs <;> exact ⟨rfl, rfl, rfl⟩

/-! ### Claim C1 -/

/-- C1 counterexample: in the c1_cfg run the training transitions to
STOPPED at iteration 4, whose 1-based count 5 is not a multiple of
validation_frequency = 2, so the run stops at a minibatch strictly between
two validation events. -/
theorem c1_counterexample :
    (sgd_optimization_mnist c1_cfg).toOption.map
      (fun s => (s.stop_iter, s.done_looping)) = some (some 4, true) ∧
    (4 + 1) % validation_frequency c1_cfg ≠ 0 := by decide

/-- C1 amended: the stop condition patience less-or-equal iter is tested at
every executed minibatch, after the optional validation block; the break of
the inner loop fires exactly when the post-validation patience is spent,
independently of the validation cadence. -/
theorem c1_stop_check_every_minibatch (cfg : SGDConfig) (s : SGDState)
    (iter : ℕ) (s' : SGDState) (brk : Bool)
    (h : sgd_minibatch_body cfg s iter = Except.ok (s', brk)) :
    (brk = true ↔ s'.patience ≤ iter) ∧
    (s'.done_looping = true ↔ (s.done_looping = true ∨ s'.patience ≤ iter)) := by
  rcases body_cases cfg s iter s' brk h with ⟨hple, hs, hbrk⟩ | ⟨hple, hs, hbrk⟩
  · subst hs
    constructor
    · exact ⟨fun _ => hple, fun _ => hbrk⟩
    · exact ⟨fun _ => Or.inr hple, fun _ => rfl⟩
  · subst hs
    constructor
    · constructor
      · intro hbt
        rw [hbrk] at hbt
        exact absurd hbt (by simp)
      · intro hp
        exact absurd hp hple
    · constructor
      · intro hd
        left
        rw [← validation_step_done cfg s iter]
        exact hd
      · rintro (hd | hp)
        · rw [validation_step_done]
          exact hd
        · exact absurd hp hple

/-- C1 witness: body application at iteration 4 of the c1_cfg run, where
patience is spent at a non-event minibatch and the loop stops. -/
theorem c1_witness :
    sgd_minibatch_body c1_cfg c1w_state 4 = Except.ok (c1w_result, true) ∧
    (c1w_result.done_looping = true ↔
      (c1w_state.done_looping = true ∨ c1w_result.patience ≤ 4)) := by
  have hb : sgd_minibatch_body c1_cfg c1w_state 4 = Except.ok (c1w_result, true) := by
    rfl
  exact ⟨hb, (c1_stop_check_every_minibatch c1_cfg c1w_state 4 c1w_result true hb).2⟩

/-! ### Claim C2 -/

/-- C2 counterexample: at the validation event of iteration 9 (1-based
count 10) of the c2_cfg run, the significant improvement extends patience
to max 10 (9 * 2) = 18, not to max 10 (10 * 2) = 20 as the 1-based reading
demands, and the run accordingly stops at iteration 18. -/
theorem c2_counterexample :
    (sgd_optimization_mnist c2_cfg).toOption.map
      (fun s => (s.patience, s.stop_iter)) = some (18, some 18) ∧
    (sgd_minibatch_body c2_cfg c2_pre_state 9).toOption =
      some (c2_post_state, false) ∧
    (9 + 1) % validation_frequency c2_cfg = 0 ∧
    float_lt (c2_cfg.vloss 9)
      (pyfloat_scale c2_cfg.improvement_threshold
        c2_pre_state.best_validation_loss) = true ∧
    c2_post_state.patience ≠
      max c2_pre_state.patience ((9 + 1) * c2_cfg.patience_increase) := by
  decide

/-- C2 amended: at every validation event whose loss beats the running best
by more than the improvement threshold, patience becomes
max patience (iter * patience_increase) where iter is the 0-based global
minibatch index, that is the 1-based count at the time of the check minus
one. -/
theorem c2_patience_update (cfg : SGDConfig) (s : SGDState) (iter : ℕ)
    (s' : SGDState) (brk : Bool)
    (hev : (iter + 1) % validation_frequency cfg = 0)
    (hlt : float_lt (cfg.vloss iter) s.best_validation_loss = true)
    (hsig : float_lt (cfg.vloss iter)
      (pyfloat_scale cfg.improvement_threshold s.best_validation_loss) = true)
    (h : sgd_minibatch_body cfg s iter = Except.ok (s', brk)) :
    s'.patience = max s.patience (iter * cfg.patience_increase) := by
  have hvs : (validation_step cfg s iter).patience =
      max s.patience (iter * cfg.patience_increase) := by
    rw [validation_step, if_pos hev, if_pos hlt]
    show (if float_lt (cfg.vloss iter)
        (pyfloat_scale cfg.improvement_threshold s.best_validation_loss) = true then
      max s.patience (iter * cfg.patience_increase) else s.patience) = _
    rw [if_pos hsig]
  rcases body_cases cfg s iter s' brk h with ⟨_, hs, _⟩ | ⟨_, hs, _⟩ <;>
    subst hs <;> exact hvs

/-- C2 witness: the amended patience update at the concrete event of
iteration 9 in the c2_cfg run. -/
theorem c2_witness :
    sgd_minibatch_body c2_cfg c2_pre_state 9 = Except.ok (c2_post_state, false) ∧
    c2_post_state.patience =
      max c2_pre_state.patience (9 * c2_cfg.patience_increase) := by
  have hb : sgd_minibatch_body c2_cfg c2_pre_state 9 =
      Except.ok (c2_post_state, false) := by rfl
  exact ⟨hb, c2_patience_update c2_cfg c2_pre_state 9 c2_post_state false
    (by decide) (by decide) (by decide) hb⟩

/-! ### Claim C4 -/

/-- C4: the test set is evaluated and best_validation_loss and test_score
updated exactly at validation events whose loss is strictly below the
running best; at every other minibatch, event or not, all three are left
unchanged. -/
theorem c4_test_eval_only_on_new_best (cfg : SGDConfig) (s : SGDState)
    (iter : ℕ) (s' : SGDState) (brk : Bool)
    (h : sgd_minibatch_body cfg s iter = Except.ok (s', brk)) :
    ((iter + 1) % validation_frequency cfg = 0 ∧
        float_lt (cfg.vloss iter) s.best_validation_loss = true →
      s'.best_validation_loss = cfg.vloss iter ∧
      s'.test_score = cfg.tloss iter ∧
      s'.n_test_evals = s.n_test_evals + 1) ∧
    ((iter + 1) % validation_frequency cfg ≠ 0 ∨
        float_lt (cfg.vloss iter) s.best_validation_loss = false →
      s'.best_validation_loss = s.best_validation_loss ∧
      s'.test_score = s.test_score ∧
      s'.n_test_evals = s.n_test_evals) := by
  obtain ⟨hbf, hts, hte⟩ := body_fields cfg s iter s' brk h
  constructor
  · rintro ⟨hev, hlt⟩
    obtain ⟨h1, h2, h3⟩ := validation_step_improving cfg s iter hev hlt
    exact ⟨hbf.trans h1, hts.trans h2, hte.trans h3⟩
  · intro hno
    have hvs := validation_step_frame cfg s iter hno
    rw [hbf, hts, hte, hvs]
    exact ⟨rfl, rfl, rfl⟩

/-- C4 witness: the improving event at iteration 3 evaluates the test set
and updates both records; the non-improving event at iteration 7 leaves
them unchanged. -/
theorem c4_witness :
    sgd_minibatch_body c4_cfg c4_pre_state 3 = Except.ok (c4_post_state, false) ∧
    c4_post_state.best_validation_loss = c4_cfg.vloss 3 ∧
    c4_post_state.test_score = c4_cfg.tloss 3 ∧
    c4_post_state.n_test_evals = c4_pre_state.n_test_evals + 1 ∧
    sgd_minibatch_body c4_cfg c4_pre_state 7 = Except.ok (c4_pre_state, false) ∧
    (7 + 1) % validation_frequency c4_cfg = 0 := by
  have hb3 : sgd_minibatch_body c4_cfg c4_pre_state 3 =
      Except.ok (c4_post_state, false) := by rfl
  have hb7 : sgd_minibatch_body c4_cfg c4_pre_state 7 =
      Except.ok (c4_pre_state, false) := by rfl
  obtain ⟨h1, h2, h3⟩ :=
    (c4_test_eval_only_on_new_best c4_cfg c4_pre_state 3 c4_post_state false hb3).1
      ⟨by decide, by decide⟩
  exact ⟨hb3, h1, h2, h3, hb7, by decide⟩

/-! ### Claim C10 -/

/-- C10: patience never decreases: every loop body step weakly increases
it, and an entire run ends with patience at least the initial patience. -/
theorem c10_patience_monotone (cfg : SGDConfig) :
    (∀ (s : SGDState) (iter : ℕ) (s' : SGDState) (brk : Bool),
      sgd_minibatch_body cfg s iter = Except.ok (s', brk) →
      s.patience ≤ s'.patience) ∧
    (∀ s', sgd_optimization_mnist cfg = Except.ok s' →
      cfg.patience0 ≤ s'.patience) := by
  constructor
  · exact fun s iter s' brk h => body_patience_le cfg s iter s' brk h
  · intro s' h
    exact outer_patience_le cfg cfg.n_epochs (initial_state cfg) s' h

/-- C10 witness: in the c10_cfg run the body at iteration 5 raises patience
from 6 to 10, and the full run ends with patience 10, at least the initial
patience 6. -/
theorem c10_witness :
    sgd_minibatch_body c10_cfg c10w_state 5 = Except.ok (c10w_post, false) ∧
    c10w_state.patience ≤ c10w_post.patience ∧
    sgd_optimization_mnist c10_cfg = Except.ok c10w_final ∧
    c10_cfg.patience0 ≤ c10w_final.patience := by
  have hb : sgd_minibatch_body c10_cfg c10w_state 5 =
      Except.ok (c10w_post, false) := by rfl
  have hr : sgd_optimization_mnist c10_cfg = Except.ok c10w_final := by rfl
  obtain ⟨h1, h2⟩ := c10_patience_monotone c10_cfg
  exact ⟨hb, h1 c10w_state 5 c10w_post false hb, hr, h2 c10w_final hr⟩

lemma validation_step_unchanged_or_improv (cfg : SGDConfig) (s : SGDState)
    (iter : ℕ) :
    validation_step cfg s iter = s ∨
    (validation_step cfg s iter).n_improvements = s.n_improvements + 1 := by
  rw [validation_step]
  split
  · split
    · right
      rfl
    · left
      rfl
  · left
    rfl

lemma inner_all_below (cfg : SGDConfig) (e : ℕ) :
    ∀ (rem m : ℕ) (s s2 : SGDState),
      (e - 1) * cfg.n_train_batches + m + rem ≤ cfg.patience0 →
      s.patience = cfg.patience0 →
      sgd_inner_loop cfg e m rem s = Except.ok s2 →
      s.n_improvements + 1 ≤ s2.n_improvements ∨ s2 = s := by
  intro rem
  induction rem with
  | zero =>
    intro m s s2 _ _ h
    rw [sgd_inner_loop] at h
    cases h
    exact Or.inr rfl
  | succ rem ih =>
    intro m s s2 hbound hp h
    rw [sgd_inner_loop] at h
    cases hbody : sgd_minibatch_body cfg s ((e - 1) * cfg.n_train_batches + m) with
    | error er => rw [hbody] at h; cases h
    | ok p =>
      obtain ⟨s1, brk⟩ := p
      rw [hbody] at h
      rcases body_cases cfg s _ s1 brk hbody with ⟨hple, hs1, hbrk⟩ | ⟨hple, hs1, hbrk⟩
      · subst hbrk
        simp only [if_pos] at h
        cases h
        rcases validation_step_unchanged_or_improv cfg s
            ((e - 1) * cfg.n_train_batches + m) with hvs | hvs
        · rw [hvs, hp] at hple
          exact absurd hple (by omega)
        · left
          rw [hs1]
          show s.n_improvements + 1 ≤
            (validation_step cfg s ((e - 1) * cfg.n_train_batches + m)).n_improvements
          omega
      · subst hbrk
        simp only [Bool.false_eq_true, if_neg, if_false] at h
        rcases validation_step_unchanged_or_improv cfg s
            ((e - 1) * cfg.n_train_batches + m) with hvs | hvs
        · rw [hvs] at hs1
          rw [hs1] at h
          exact ih (m + 1) s s2 (by omega) hp h
        · left
          have h1 : s1.n_improvements = s.n_improvements + 1 := by
            rw [hs1]
            exact hvs
          have hmono := inner_improvements_le cfg e rem (m + 1) s1 s2 h
          omega

lemma inner_stop_at (cfg : SGDConfig) (e : ℕ) :
    ∀ (rem m : ℕ) (s s2 : SGDState),
      (e - 1) * cfg.n_train_batches + m ≤ cfg.patience0 →
      cfg.patience0 < (e - 1) * cfg.n_train_batches + m + rem →
      s.patience = cfg.patience0 →
      sgd_inner_loop cfg e m rem s = Except.ok s2 →
      s.n_improvements + 1 ≤ s2.n_improvements ∨
        s2 = { s with done_looping := true, stop_iter := some cfg.patience0 } := by
  intro rem
  induction rem with
  | zero =>
    intro m s s2 h1 h2 _ _
    exfalso
    omega
  | succ rem ih =>
    intro m s s2 hlow hhigh hp h
    rw [sgd_inner_loop] at h
    cases hbody : sgd_minibatch_body cfg s ((e - 1) * cfg.n_train_batches + m) with
    | error er => rw [hbody] at h; cases h
    | ok p =>
      obtain ⟨s1, brk⟩ := p
      rw [hbody] at h
      rcases body_cases cfg s _ s1 brk hbody with ⟨hple, hs1, hbrk⟩ | ⟨hple, hs1, hbrk⟩
      · subst hbrk
        simp only [if_pos] at h
        cases h
        rcases validation_step_unchanged_or_improv cfg s
            ((e - 1) * cfg.n_train_batches + m) with hvs | hvs
        · right
          have hiter : (e - 1) * cfg.n_train_batches + m = cfg.patience0 := by
            rw [hvs, hp] at hple
            omega
          rw [hs1, hvs, hiter]
        · left
          rw [hs1]
          show s.n_improvements + 1 ≤
            (validation_step cfg s ((e - 1) * cfg.n_train_batches + m)).n_improvements
          omega
      · subst hbrk
        simp only [Bool.false_eq_true, if_neg, if_false] at h
        rcases validation_step_unchanged_or_improv cfg s
            ((e - 1) * cfg.n_train_batches + m) with hvs | hvs
        · have hlt : (e - 1) * cfg.n_train_batches + m < cfg.patience0 := by
            rcases Nat.lt_or_ge ((e - 1) * cfg.n_train_batches + m) cfg.patience0
                with hc | hc
            · exact hc
            · exfalso
              apply hple
              rw [hvs, hp]
              omega
          rw [hvs] at hs1
          rw [hs1] at h
          exact ih (m + 1) s s2 (by omega) (by omega) hp h
        · left
          have h1 : s1.n_improvements = s.n_improvements + 1 := by
            rw [hs1]
            exact hvs
          have hmono := inner_improvements_le cfg e rem (m + 1) s1 s2 h
          omega

lemma outer_done (cfg : SGDConfig) (fuel : ℕ) (s : SGDState)
    (hd : s.done_looping = true) :
    sgd_outer_loop cfg fuel s = Except.ok s := by
  cases fuel with
  | zero => rw [sgd_outer_loop]
  | succ fuel => rw [sgd_outer_loop, if_pos hd]

lemma outer_scan (cfg : SGDConfig) :
    ∀ (fuel : ℕ) (s s' : SGDState),
      s.patience = cfg.patience0 →
      s.done_looping = false →
      s.epoch * cfg.n_train_batches ≤ cfg.patience0 →
      sgd_outer_loop cfg fuel s = Except.ok s' →
      s.n_improvements + 1 ≤ s'.n_improvements ∨
        (s'.patience = s.patience ∧
          (s'.done_looping = false → s'.epoch = s.epoch + fuel) ∧
          (s'.done_looping = true → s'.stop_iter = some cfg.patience0)) := by
  intro fuel
  induction fuel with
  | zero =>
    intro s s' hp hd _ h
    rw [sgd_outer_loop] at h
    cases h
    right
    refine ⟨rfl, fun _ => by omega, fun hdt => ?_⟩
    rw [hd] at hdt
    cases hdt
  | succ fuel ih =>
    intro s s' hp hd hinv h
    rw [sgd_outer_loop, if_neg (by rw [hd]; exact Bool.false_ne_true)] at h
    cases hi : sgd_inner_loop cfg (s.epoch + 1) 0 cfg.n_train_batches
        { s with epoch := s.epoch + 1 } with
    | error er => rw [hi] at h; cases h
    | ok s2 =>
      rw [hi] at h
      have hsm : s.epoch * cfg.n_train_batches + cfg.n_train_batches =
          (s.epoch + 1) * cfg.n_train_batches := (Nat.succ_mul _ _).symm
      by_cases hcross : (s.epoch + 1) * cfg.n_train_batches ≤ cfg.patience0
      · have hbnd : (s.epoch + 1 - 1) * cfg.n_train_batches + 0 +
            cfg.n_train_batches ≤ cfg.patience0 := by
          rw [Nat.add_sub_cancel]
          omega
        have hall := inner_all_below cfg (s.epoch + 1) cfg.n_train_batches 0
          { s with epoch := s.epoch + 1 } s2 hbnd hp hi
        rcases hall with hup | hunch
        · left
          have hupe : s.n_improvements + 1 ≤ s2.n_improvements := hup
          have hm2 := outer_improvements_le cfg fuel s2 s' h
          omega
        · rw [hunch] at h
          have hres := ih { s with epoch := s.epoch + 1 } s' hp hd hcross h
          rcases hres with hup | ⟨hpat, hdf, hdt⟩
          · left
            exact hup
          · right
            refine ⟨hpat, fun hdfc => ?_, hdt⟩
            have h2 : s'.epoch = s.epoch + 1 + fuel := hdf hdfc
            omega
      · have hlow : (s.epoch + 1 - 1) * cfg.n_train_batches + 0 ≤
            cfg.patience0 := by
          rw [Nat.add_sub_cancel]
          omega
        have hhigh : cfg.patience0 < (s.epoch + 1 - 1) * cfg.n_train_batches +
            0 + cfg.n_train_batches := by
          rw [Nat.add_sub_cancel]
          omega
        have hstop := inner_stop_at cfg (s.epoch + 1) cfg.n_train_batches 0
          { s with epoch := s.epoch + 1 } s2 hlow hhigh hp hi
        rcases hstop with hup | hs2
        · left
          have hupe : s.n_improvements + 1 ≤ s2.n_improvements := hup
          have hm2 := outer_improvements_le cfg fuel s2 s' h
          omega
        · rw [hs2] at h
          have h3 : sgd_outer_loop cfg fuel
              { { s with epoch := s.epoch + 1 } with
                  done_looping := true, stop_iter := some cfg.patience0 } =
              Except.ok s' := h
          rw [outer_done cfg fuel _ rfl] at h3
          cases h3
          right
          refine ⟨rfl, fun hdfc => ?_, fun _ => rfl⟩
          have hcontra : (true : Bool) = false := hdfc
          cases hcontra

/-! ### Claim C3 -/

/-- C3 counterexample: in the c3_cfg run the validation split is empty, so
every measured validation loss is nan and no validation event ever attains
a new best (zero improvements), yet the run does not use its configured 10
epochs: it stops at iteration 8 = patience0, during epoch 2. -/
theorem c3_counterexample :
    (sgd_optimization_mnist c3_cfg).toOption.map
      (fun s => (s.n_improvements, s.epoch, s.done_looping, s.stop_iter)) =
      some (0, 2, true, some 8) ∧
    c3_cfg.n_epochs = 10 ∧
    (2 : ℕ) ≠ 10 := by decide

/-- C3 amended: if no validation event of a run attains a new best
validation loss (as with an empty validation split, where every measured
loss is nan and nan is below nothing), then patience keeps its initial
value, and the run either finishes all n_epochs epochs, when it never
reaches iteration patience0, or transitions to STOPPED exactly at
iteration patience0, before max_epochs. -/
theorem c3_no_improvement_keeps_patience (cfg : SGDConfig) (s' : SGDState)
    (hrun : sgd_optimization_mnist cfg = Except.ok s')
    (h0 : s'.n_improvements = 0) :
    s'.patience = cfg.patience0 ∧
    (s'.done_looping = false → s'.epoch = cfg.n_epochs) ∧
    (s'.done_looping = true → s'.stop_iter = some cfg.patience0) := by
  have hinv : (initial_state cfg).epoch * cfg.n_train_batches ≤
      cfg.patience0 := by
    show 0 * cfg.n_train_batches ≤ cfg.patience0
    omega
  have hscan := outer_scan cfg cfg.n_epochs (initial_state cfg) s' rfl rfl
    hinv hrun
  rcases hscan with hup | ⟨hpat, hdf, hdt⟩
  · exfalso
    have hup0 : (0 : ℕ) + 1 ≤ s'.n_improvements := hup
    omega
  · refine ⟨hpat, fun hdfc => ?_, hdt⟩
    have h2 : s'.epoch = 0 + cfg.n_epochs := hdf hdfc
    omega

/-- C3 witness: the amended statement at the nan run: the final state has
no improvements, patience still 8 = patience0, and its stop iteration is
exactly patience0. -/
theorem c3_witness :
    sgd_optimization_mnist c3_cfg = Except.ok c3_final ∧
    c3_final.n_improvements = 0 ∧
    c3_final.patience = c3_cfg.patience0 ∧
    (c3_final.done_looping = true → c3_final.stop_iter = some c3_cfg.patience0) := by
  have hr : sgd_optimization_mnist c3_cfg = Except.ok c3_final := by rfl
  obtain ⟨h1, _, h3⟩ := c3_no_improvement_keeps_patience c3_cfg c3_final hr rfl
  exact ⟨hr, rfl, h1, h3⟩

/-! ### Claim C5 -/

/-- C5 counterexample: validation_frequency is not floored to 1: with zero
training batches it is 0; and the cadence modulo does fault for a
configuration with batches whose initial patience is below 2, where the
run raises the Python ZeroDivisionError at the first minibatch. -/
theorem c5_counterexample :
    validation_frequency c5_cfg_zero = 0 ∧
    (sgd_optimization_mnist c5_cfg_crash).toOption = none := by decide

/-- C5 amended: validation_frequency is min n_train_batches (patience0 / 2)
with no flooring.  With zero training batches it is 0, yet no modulo is
evaluated because the inner loop body never runs and the run completes all
epochs; with at least one batch and one epoch, a zero validation_frequency
makes the first minibatch fault with a modulo by zero. -/
theorem c5_validation_frequency_unfloored (cfg : SGDConfig) :
    (cfg.n_train_batches = 0 →
      sgd_optimization_mnist cfg =
        Except.ok { initial_state cfg with epoch := cfg.n_epochs }) ∧
    (1 ≤ cfg.n_train_batches → 1 ≤ cfg.n_epochs →
      validation_frequency cfg = 0 →
      sgd_optimization_mnist cfg = Except.error ()) := by
  constructor
  · intro hnb
    rw [sgd_optimization_mnist,
      outer_zero_batches cfg hnb cfg.n_epochs (initial_state cfg) rfl]
    congr 2
    show 0 + cfg.n_epochs = cfg.n_epochs
    omega
  · intro hnb hne hvf
    obtain ⟨f, hf⟩ : ∃ f, cfg.n_epochs = f + 1 := ⟨cfg.n_epochs - 1, by omega⟩
    obtain ⟨k, hk⟩ : ∃ k, cfg.n_train_batches = k + 1 :=
      ⟨cfg.n_train_batches - 1, by omega⟩
    rw [sgd_optimization_mnist, hf, sgd_outer_loop,
      if_neg (by simp [initial_state]), hk, inner_error_of_vf cfg _ hvf 0 k _]

/-- C5 witness: a zero-batch run completes all four epochs with
validation_frequency 0, and a run with two batches and patience 0 faults
at once. -/
theorem c5_witness :
    c5w_cfg_a.n_train_batches = 0 ∧
    sgd_optimization_mnist c5w_cfg_a =
      Except.ok { initial_state c5w_cfg_a with epoch := c5w_cfg_a.n_epochs } ∧
    1 ≤ c5w_cfg_b.n_train_batches ∧
    1 ≤ c5w_cfg_b.n_epochs ∧
    validation_frequency c5w_cfg_b = 0 ∧
    sgd_optimization_mnist c5w_cfg_b = Except.error () := by
  exact ⟨rfl, (c5_validation_frequency_unfloored c5w_cfg_a).1 rfl,
    by decide, by decide, by decide,
    (c5_validation_frequency_unfloored c5w_cfg_b).2 (by decide) (by decide)
      (by decide)⟩

end DBNTest
